import Mathlib

/-!
# Verification of the hyperion flyscan orchestration layer

A shallow embedding of the bluesky experiment plans of this repository
(`hyperion/experiment_plans/flyscan_xray_centre_plan.py`,
`artemis/device_setup_plans/setup_zebra_for_rotation.py`,
`artemis/external_interaction/ispyb/ispyb_dataclass.py`, and the run-control
service exercised by `hyperion/system_tests/test_main_system.py`).

A bluesky plan is a generator that yields messages (`bluesky.plan_stubs`)
to the RunEngine.  We embed a plan as a function from an environment (the
responses of the hardware and of the external zocalo service, plus which
message executions fail) to the trace of messages the RunEngine consumed
together with the plan outcome (normal return or propagated exception).
Exceptions raised while executing a message are modelled by `Env.failMsg`:
the message still appears in the trace (it was issued), and the exception
then propagates through the plan like a Python exception, subject to the
`finalize` / `contingency` preprocessor wrappers which we model after
`bluesky.preprocessors`.

Keyword details of `bps.abs_set` (`group=`, `wait=`) are not modelled: no
claim depends on them.  Numeric device values are rationals.
-/

/-- The devices that plan stubs stage/unstage/stop/kickoff in the embedded plans. -/
inductive Dev
| eiger
| fgsMotors
deriving DecidableEq

/-- Signals and movables that plan stubs set or read. -/
inductive Target
| sampleOmega
| sampleX
| sampleY
| sampleZ
| scanInvalid
| positionCounter
| zSteps
| aperture
| undulatorGap
| synchrotronMode
| slitXgap
| slitYgap
| attenuatorActual
| fluxReading
| fgsParams
| zebraShutterControl
| zebraGateForGridscan
| zebraGateStart
| zebraGateWidth
| zebraGateTrigger
| zebraPulseStep
| zebraPulseWidth
| zebraPulse1Input
| zebraOutPv (n : ℕ)
deriving DecidableEq

/-- Values written by `bps.abs_set`. -/
inductive Value
| num (q : ℚ)
| apPos (p : List ℚ)
| scanParams
| sel (n : ℕ)
deriving DecidableEq

/-- The messages (plan stubs) a plan yields to the RunEngine, plus the run
bracketing and subscription messages produced by the preprocessors. -/
inductive Msg
| absSet (t : Target) (v : Value)
| rd (t : Target)
| sleep (q : ℚ)
| waitFor (group : Option String)
| stage (d : Dev)
| unstage (d : Dev)
| stopDev (d : Dev)
| kickoff (d : Dev)
| complete (d : Dev) (wait : Bool)
| create (name : String)
| readSig (t : Target)
| save
| openRun (key : String)
| closeRun (key : String) (success : Bool)
| subscribe
| unsubscribe
deriving DecidableEq

/-- The trace of messages the RunEngine consumed while executing a plan. -/
abbrev Trace := List Msg

/-- Exceptions that can propagate out of a plan. -/
inductive PlanErr
| msgFailure (m : Msg)
| warningException (s : String)
| exc (s : String)
deriving DecidableEq

deriving instance DecidableEq for Except

/-- Outcome of running a plan: the trace of consumed messages and either a
normal return value or a propagated exception. -/
abbrev PlanRes (α : Type) := Trace × Except PlanErr α

/-- Bounding box size returned by zocalo (`bbox_size is [x,y,z]`). -/
structure BBoxSize where
  x : ℤ
  y : ℤ
  z : ℤ
deriving DecidableEq

/-- The aperture positions carried by the ApertureScatterguard device
(external dodal device; only its MEDIUM and LARGE positions are used). -/
structure AperturePositions where
  MEDIUM : List ℚ
  LARGE : List ℚ
deriving DecidableEq

/-- The environment a plan executes in: which message executions raise, the
successive readings of the fast-grid-scan validity signals, the initial
sample motor positions, the result of the blocking zocalo wait and the
configured aperture positions. -/
structure Env where
  failMsg : Msg → Bool
  scanInvalid : ℕ → Bool
  posCounter : ℕ → ℕ
  sampleX : ℚ
  sampleY : ℚ
  sampleZ : ℚ
  zocalo : Except PlanErr ((ℚ × ℚ × ℚ) × Option BBoxSize)
  aperturePositions : AperturePositions

/-- Execute one message: it is recorded in the trace, then raises iff the
environment fails it. -/
def emit (env : Env) (m : Msg) : PlanRes Unit :=
  ([m], if env.failMsg m then Except.error (PlanErr.msgFailure m) else Except.ok ())

/-- Sequencing of plans: a propagated exception skips the continuation;
traces accumulate. -/
def pbind {α β : Type} (x : PlanRes α) (f : α → PlanRes β) : PlanRes β :=
  match x with
  | (t, Except.error e) => (t, Except.error e)
  | (t, Except.ok a) => (t ++ (f a).1, (f a).2)

/-- A plan that yields nothing and returns `a`. -/
def ppure {α : Type} (a : α) : PlanRes α := ([], Except.ok a)

/-- A direct (non-yielding) Python call that may raise. -/
def pyCall {α : Type} (r : Except PlanErr α) : PlanRes α := ([], r)

/-- Yield each message of a list in order (a straight-line sequence of stubs). -/
def emitSeq (env : Env) : List Msg → PlanRes Unit
| [] => ppure ()
| m :: ms => pbind (emit env m) fun _ => emitSeq env ms

/-! ## The bluesky preprocessors used by the plans

Modelled after `bluesky.preprocessors`: `finalize_wrapper` is a
try/finally (an exception raised by the cleanup replaces the in-flight
exception, as in Python), `contingency_wrapper` is
try/except-reraise/else, and `run_wrapper` brackets a plan in
`open_run`/`close_run`, closing with a failed exit status when the plan
raised.  `subs_wrapper` subscribes callbacks and unsubscribes in a
finally clause.  `set_run_key_decorator` only tags the bracketing
messages; it is folded into the `key` argument of `runWrapper`. -/

def finalizeWrapper {α : Type} (p : PlanRes α) (fin : PlanRes Unit) : PlanRes α :=
  match p with
  | (t, Except.ok a) =>
    (t ++ fin.1, match fin.2 with
      | Except.ok _ => Except.ok a
      | Except.error e2 => Except.error e2)
  | (t, Except.error e) =>
    (t ++ fin.1, match fin.2 with
      | Except.ok _ => Except.error e
      | Except.error e2 => Except.error e2)

def contingencyWrapper {α : Type} (p : PlanRes α)
    (exceptPlan : PlanErr → PlanRes Unit) (elsePlan : PlanRes Unit) : PlanRes α :=
  match p with
  | (t, Except.error e) =>
    (t ++ (exceptPlan e).1, match (exceptPlan e).2 with
      | Except.ok _ => Except.error e
      | Except.error e2 => Except.error e2)
  | (t, Except.ok a) =>
    (t ++ elsePlan.1, match elsePlan.2 with
      | Except.ok _ => Except.ok a
      | Except.error e2 => Except.error e2)

def runWrapper {α : Type} (env : Env) (key : String) (p : PlanRes α) : PlanRes α :=
  pbind (emit env (Msg.openRun key)) fun _ =>
    contingencyWrapper p
      (fun _ => emit env (Msg.closeRun key false))
      (emit env (Msg.closeRun key true))

def subsWrapper {α : Type} (env : Env) (p : PlanRes α) : PlanRes α :=
  pbind (emit env Msg.subscribe) fun _ =>
    finalizeWrapper p (emit env Msg.unsubscribe)

/-! ## `wait_for_gridscan_valid`
(`flyscan_xray_centre_plan.py` lines 126-139; the artemis twin
`wait_for_fgs_valid`, `fast_grid_scan_plan.py` lines 64-74, differs only in
its log/exception strings.)  The source computes
`times_to_check = int(timeout / SLEEP_PER_CHECK)` and loops that many
times, each iteration reading `scan_invalid` and `position_counter`,
returning when `not scan_invalid and pos_counter == 0`, and otherwise
sleeping 0.1 s before the next iteration; when the loop ends it raises
`WarningException`.  Arithmetic is embedded over ℚ; `int()` truncates
toward zero. -/

def SLEEP_PER_CHECK : ℚ := 1 / 10

/-- Python `int()` on a float: truncation toward zero. -/
def pyInt (q : ℚ) : ℤ := if q < 0 then ⌈q⌉ else ⌊q⌋

def timesToCheck (timeout : ℚ) : ℕ := (pyInt (timeout / SLEEP_PER_CHECK)).toNat

def scanInvalidMsg : String := "Scan invalid - pin too long/short/bent and out of range"

/-- The validity test of one polling iteration:
`not scan_invalid and pos_counter == 0`. -/
def fgsValidAt (env : Env) (i : ℕ) : Bool :=
  !env.scanInvalid i && env.posCounter i == 0

/-- The polling loop of `wait_for_gridscan_valid`: `i` counts the
iterations already performed, the second argument is the remaining fuel. -/
def waitLoop (env : Env) : ℕ → ℕ → PlanRes Unit
| _, 0 => ([], Except.error (PlanErr.warningException scanInvalidMsg))
| i, n + 1 =>
  pbind (emit env (Msg.rd Target.scanInvalid)) fun _ =>
  pbind (emit env (Msg.rd Target.positionCounter)) fun _ =>
  if fgsValidAt env i then ppure ()
  else pbind (emit env (Msg.sleep SLEEP_PER_CHECK)) fun _ => waitLoop env (i + 1) n

def wait_for_gridscan_valid (env : Env) (timeout : ℚ := 1 / 2) : PlanRes Unit :=
  waitLoop env 0 (timesToCheck timeout)

/-- The two reads performed by each check of the polling loop. -/
def checkMsgs : List Msg := [Msg.rd Target.scanInvalid, Msg.rd Target.positionCounter]

/-- Trace of `k` failed checks, each followed by the 0.1 s sleep. -/
def checksTrace : ℕ → Trace
| 0 => []
| k + 1 => checkMsgs ++ [Msg.sleep SLEEP_PER_CHECK] ++ checksTrace k

/-! ## The leaf plans called by the flyscan plan whose bodies are outside
the sources of this repository. -/

/-- Modelled from the spec: the body of
`hyperion.device_setup_plans.setup_zebra.set_zebra_shutter_to_manual` is not
in the sources; per the spec it returns the trigger electronics (zebra
shutter control) to a safe manual state.  Modelled as one `abs_set` on the
zebra shutter-control signal (the selection constant is external, written 0). -/
def set_zebra_shutter_to_manual (env : Env) : PlanRes Unit :=
  emit env (Msg.absSet Target.zebraShutterControl (Value.sel 0))

/-- `tidy_up_plans` (`flyscan_xray_centre_plan.py` lines 142-144): logs and
delegates to `set_zebra_shutter_to_manual`. -/
def tidy_up_plans (env : Env) : PlanRes Unit :=
  set_zebra_shutter_to_manual env

/-- Modelled from the spec: the body of
`hyperion.device_setup_plans.setup_zebra.setup_zebra_for_gridscan` is not in
the sources; per the spec it configures the trigger/gate signals before the
scan.  Modelled as one `abs_set` on the zebra gridscan gate signal. -/
def setup_zebra_for_gridscan (env : Env) : PlanRes Unit :=
  emit env (Msg.absSet Target.zebraGateForGridscan (Value.sel 1))

/-- Modelled from the spec: the event-descriptor name constant
(`ISPYB_PLAN_NAME`) is defined outside the sources. -/
def ISPYB_PLAN_NAME : String := "ispyb_readings"

/-- `read_hardware_for_ispyb`: the artemis version is in the sources
(`fast_grid_scan_plan.py` lines 26-41): `create`, reads of undulator gap,
synchrotron mode and both slit gaps, then `save`.  The hyperion version
called by `run_gridscan` is outside the sources; it is additionally passed
the attenuator and flux devices, so their reads are modelled in between. -/
def ispybReadMsgs : List Msg :=
  [ Msg.create ISPYB_PLAN_NAME,
    Msg.readSig Target.undulatorGap,
    Msg.readSig Target.synchrotronMode,
    Msg.readSig Target.slitXgap,
    Msg.readSig Target.slitYgap,
    Msg.readSig Target.attenuatorActual,
    Msg.readSig Target.fluxReading,
    Msg.save ]

def read_hardware_for_ispyb (env : Env) : PlanRes Unit :=
  emitSeq env ispybReadMsgs

/-- `set_fast_grid_scan_params` (external dodal helper): writes the scan
parameters to the fast-grid-scan device. -/
def set_flyscan_params (env : Env) : PlanRes Unit :=
  emit env (Msg.absSet Target.fgsParams Value.scanParams)

/-- Modelled from the spec: the body of
`hyperion.device_setup_plans.manipulate_sample.move_x_y_z` is not in the
sources; per the call site it moves the sample motors to the given x, y, z
with `wait=True` (compare the artemis `move_xyz`, `fast_grid_scan_plan.py`
lines 45-61). -/
def move_x_y_z (env : Env) (c : ℚ × ℚ × ℚ) : PlanRes Unit :=
  emitSeq env
    [ Msg.absSet Target.sampleX (Value.num c.1),
      Msg.absSet Target.sampleY (Value.num c.2.1),
      Msg.absSet Target.sampleZ (Value.num c.2.2),
      Msg.waitFor none ]

/-! ## The flyscan plans (`flyscan_xray_centre_plan.py`) -/

/-- The aperture position selected by `set_aperture_for_bbox_size`
(lines 101-111): MEDIUM when `bbox_size[0] < 2`, LARGE otherwise. -/
def aperture_for_bbox_size (env : Env) (bbox : BBoxSize) : List ℚ :=
  if bbox.x < 2 then env.aperturePositions.MEDIUM else env.aperturePositions.LARGE

/-- `set_aperture_for_bbox_size` (lines 101-123): selects the position from
`bbox_size[0]` and runs the `change_aperture` sub-run setting it. -/
def set_aperture_for_bbox_size (env : Env) (bbox : BBoxSize) : PlanRes Unit :=
  runWrapper env "change_aperture"
    (emit env (Msg.absSet Target.aperture (Value.apPos (aperture_for_bbox_size env bbox))))

/-- The undecorated body of `do_fgs` (lines 186-189): wait for all moves,
kickoff, complete. -/
def do_fgs_inner (env : Env) : PlanRes Unit :=
  pbind (emit env (Msg.waitFor none)) fun _ =>
  pbind (emit env (Msg.kickoff Dev.fgsMotors)) fun _ =>
  emit env (Msg.complete Dev.fgsMotors true)

/-- `do_fgs` (lines 180-196): the body under the contingency decorator
(`bps.stop` of the Eiger on exception and re-raise, `bps.unstage` of the
Eiger otherwise) inside the `do_fgs` run bracketing. -/
def do_fgs (env : Env) : PlanRes Unit :=
  runWrapper env "do_fgs"
    (contingencyWrapper (do_fgs_inner env)
      (fun _ => emit env (Msg.stopDev Dev.eiger))
      (emit env (Msg.unstage Dev.eiger)))

/-- The undecorated body of `run_gridscan` (lines 149-198). -/
def run_gridscan_body (env : Env) : PlanRes Unit :=
  pbind (emit env (Msg.absSet Target.sampleOmega (Value.num 0))) fun _ =>
  pbind (read_hardware_for_ispyb env) fun _ =>
  pbind (set_flyscan_params env) fun _ =>
  pbind (wait_for_gridscan_valid env (1 / 2)) fun _ =>
  pbind (emit env (Msg.waitFor (some "ready_for_data_collection"))) fun _ =>
  pbind (emit env (Msg.stage Dev.eiger)) fun _ =>
  pbind (do_fgs env) fun _ =>
  emit env (Msg.absSet Target.zSteps (Value.num 0))

/-- `run_gridscan` under its run decorator. -/
def run_gridscan (env : Env) : PlanRes Unit :=
  runWrapper env "run_gridscan" (run_gridscan_body env)

/-- The undecorated body of `run_gridscan_and_move` (lines 203-239): read
the initial motor positions, set up the zebra, run the gridscan, block on
the zocalo results (a direct call, no messages), change the aperture when a
bounding-box size was returned, then move to the returned centre. -/
def run_gridscan_and_move_body (env : Env) : PlanRes Unit :=
  pbind (emit env (Msg.rd Target.sampleX)) fun _ =>
  pbind (emit env (Msg.rd Target.sampleY)) fun _ =>
  pbind (emit env (Msg.rd Target.sampleZ)) fun _ =>
  pbind (setup_zebra_for_gridscan env) fun _ =>
  pbind (run_gridscan env) fun _ =>
  pbind (pyCall env.zocalo) fun res =>
  pbind (match res.2 with
    | some bbox => set_aperture_for_bbox_size env bbox
    | none => ppure ()) fun _ =>
  move_x_y_z env res.1

/-- `run_gridscan_and_move` under its run decorator. -/
def run_gridscan_and_move (env : Env) : PlanRes Unit :=
  runWrapper env "run_gridscan_and_move" (run_gridscan_and_move_body env)

/-- `flyscan_xray_centre` (lines 242-279): `run_gridscan_and_move` under,
from innermost out, the finalize decorator running `tidy_up_plans`, the
`run_gridscan_move_and_tidy` run bracketing, and the callback subscription
wrapper.  (`set_detector_parameters` and the composite assertion are direct
Python calls that yield no messages.) -/
def flyscan_xray_centre (env : Env) : PlanRes Unit :=
  subsWrapper env
    (runWrapper env "run_gridscan_move_and_tidy"
      (finalizeWrapper (run_gridscan_and_move env) (tidy_up_plans env)))

/-! ## `setup_zebra_for_rotation`
(`artemis/device_setup_plans/setup_zebra_for_rotation.py` lines 15-65.) -/

/-- The zebra wiring constants imported from `artemis.devices.zebra`
(external device layer; their numeric values are not in the sources, so the
plan is parameterised over them). -/
structure ZebraConstants where
  TTL_DETECTOR : ℕ
  TTL_SHUTTER : ℕ
  TTL_XSPRESS3 : ℕ
  PC_PULSE : ℕ
  OR1 : ℕ
  DISCONNECT : ℕ

def MINIMUM_EXPOSURE_TIME : ℚ := 5 / 1000

/-- The message of the `Exception` raised by the exposure-time sanity check. -/
def minExposureMsg (exposureTime : ℚ) : String :=
  "Exposure time " ++ toString exposureTime ++ " less than allowed minimum of "
    ++ toString MINIMUM_EXPOSURE_TIME ++ "."

/-- The nine `abs_set` commands issued after the sanity check (lines 47-62). -/
def rotationMsgs (zc : ZebraConstants) (axisVal : ℕ)
    (startAngle scanWidth exposureTime : ℚ) : List Msg :=
  [ Msg.absSet Target.zebraGateStart (Value.num startAngle),
    Msg.absSet Target.zebraGateWidth (Value.num scanWidth),
    Msg.absSet Target.zebraGateTrigger (Value.sel axisVal),
    Msg.absSet (Target.zebraOutPv zc.TTL_DETECTOR) (Value.sel zc.PC_PULSE),
    Msg.absSet Target.zebraPulseStep (Value.num exposureTime),
    Msg.absSet Target.zebraPulseWidth (Value.num (exposureTime / 2)),
    Msg.absSet (Target.zebraOutPv zc.TTL_SHUTTER) (Value.sel zc.OR1),
    Msg.absSet (Target.zebraOutPv zc.TTL_XSPRESS3) (Value.sel zc.DISCONNECT),
    Msg.absSet Target.zebraPulse1Input (Value.sel zc.DISCONNECT) ]

/-- `setup_zebra_for_rotation`: raises when `exposure_time` is below the
minimum (before any command is issued), otherwise issues the gate, pulse and
output configuration commands.  Note line 65 of the source: `bps.wait(group)`
is called without `yield from`, so the final wait yields no message and is
absent from the trace for either value of `wait`. -/
def setup_zebra_for_rotation (env : Env) (zc : ZebraConstants) (axisVal : ℕ)
    (startAngle scanWidth exposureTime : ℚ) (wait : Bool) : PlanRes Unit :=
  if exposureTime < MINIMUM_EXPOSURE_TIME then
    ([], Except.error (PlanErr.exc (minExposureMsg exposureTime)))
  else
    emitSeq env (rotationMsgs zc axisVal startAngle scanWidth exposureTime)

/-! ## `IspybParams`
(`artemis/external_interaction/ispyb/ispyb_dataclass.py` lines 35-83.)
Field layout follows the dataclass declaration.  `to_json` is the
dataclasses-json serialisation; its exact text (float formatting, numpy
`str()` rendering) is immaterial to the claims, which relate `__eq__` to
equality of the serialisations, so it is embedded as a structural rendering
into a string in declaration order with the numpy-array fields rendered
through their `str()` encoder. -/

/-- `str()` of a 1-d numpy array: bracketed, space-separated entries. -/
def npStr (a : List ℚ) : String :=
  "[" ++ String.intercalate " " (a.map toString) ++ "]"

def jsonOfStr (s : String) : String := "\"" ++ s ++ "\""

def jsonOfNum (q : ℚ) : String := toString q

def jsonOfStrList (l : List String) : String :=
  "[" ++ String.intercalate ", " (l.map jsonOfStr) ++ "]"

def jsonOfOptNum : Option ℚ → String
| none => "null"
| some q => jsonOfNum q

def jsonOfOptInt : Option ℤ → String
| none => "null"
| some n => toString n

def jsonOfOptStr : Option String → String
| none => "null"
| some s => jsonOfStr s

structure IspybParams where
  visit_path : String
  microns_per_pixel_x : ℚ
  microns_per_pixel_y : ℚ
  upper_left : List ℚ
  position : List ℚ
  xtal_snapshots_omega_start : List String
  xtal_snapshots_omega_end : List String
  transmission : ℚ
  flux : ℚ
  wavelength : ℚ
  beam_size_x : ℚ
  beam_size_y : ℚ
  focal_spot_size_x : ℚ
  focal_spot_size_y : ℚ
  comment : String
  resolution : ℚ
  sample_id : Option ℤ
  sample_barcode : Option String
  undulator_gap : Option ℚ
  synchrotron_mode : Option String
  slit_gap_size_x : Option ℚ
  slit_gap_size_y : Option ℚ
deriving DecidableEq

def IspybParams.to_json (p : IspybParams) : String :=
  "\x7b" ++ String.intercalate ", "
    [ jsonOfStr p.visit_path,
      jsonOfNum p.microns_per_pixel_x,
      jsonOfNum p.microns_per_pixel_y,
      jsonOfStr (npStr p.upper_left),
      jsonOfStr (npStr p.position),
      jsonOfStrList p.xtal_snapshots_omega_start,
      jsonOfStrList p.xtal_snapshots_omega_end,
      jsonOfNum p.transmission,
      jsonOfNum p.flux,
      jsonOfNum p.wavelength,
      jsonOfNum p.beam_size_x,
      jsonOfNum p.beam_size_y,
      jsonOfNum p.focal_spot_size_x,
      jsonOfNum p.focal_spot_size_y,
      jsonOfStr p.comment,
      jsonOfNum p.resolution,
      jsonOfOptInt p.sample_id,
      jsonOfOptStr p.sample_barcode,
      jsonOfOptNum p.undulator_gap,
      jsonOfOptStr p.synchrotron_mode,
      jsonOfOptNum p.slit_gap_size_x,
      jsonOfOptNum p.slit_gap_size_y ] ++ "\x7d"

/-- The operand of `IspybParams.__eq__`: either another `IspybParams` or a
value of some other Python type, identified only by its type tag. -/
inductive PyVal
| ispyb (p : IspybParams)
| otherVal (typeTag : String)

/-- The result of a Python `__eq__` method: a boolean or `NotImplemented`. -/
inductive PyCmp
| bool (b : Bool)
| notImplemented
deriving DecidableEq

/-- `IspybParams.__eq__` (lines 79-83): `NotImplemented` unless the operand
is an `IspybParams`, otherwise equality of the `to_json` serialisations. -/
def IspybParams.pyEq (a : IspybParams) : PyVal → PyCmp
| PyVal.ispyb b => PyCmp.bool (a.to_json == b.to_json)
| PyVal.otherVal _ => PyCmp.notImplemented

/-! ## The run-control service
Modelled from the spec: `hyperion/__main__.py` (the Flask service and
`BlueskyRunner`) is not in the sources; only its system tests are
(`test_main_system.py`).  Per the spec it is a background worker running
one plan at a time, exposing status idle/busy/aborting/success/failed,
starting a plan only when none is running, moving to ABORTING on a stop
request until the abort completes, and reporting FAILED with the
message and type of the exception when the run engine terminates with an
exception, or returning to IDLE when it terminates cleanly. -/

/-- The `Status` values reported over HTTP. -/
inductive SvcStatus
| IDLE
| BUSY
| ABORTING
| SUCCESS
| FAILED
deriving DecidableEq

/-- The phase of the service between events: idle, running a plan, aborting a
running plan, or holding the failure report of the last run. -/
inductive SvcPhase
| idle
| busy
| aborting
| failed (message : String) (excType : String)
deriving DecidableEq

/-- The status reported by a GET of the status endpoint in each phase. -/
def svcStatusOf : SvcPhase → SvcStatus
| SvcPhase.idle => SvcStatus.IDLE
| SvcPhase.busy => SvcStatus.BUSY
| SvcPhase.aborting => SvcStatus.ABORTING
| SvcPhase.failed _ _ => SvcStatus.FAILED

/-- A start request: refused (FAILED, no state change) while a plan is
running or aborting, otherwise the plan is queued and the service becomes
busy (SUCCESS). -/
def svcStart : SvcPhase → SvcPhase × SvcStatus
| SvcPhase.busy => (SvcPhase.busy, SvcStatus.FAILED)
| SvcPhase.aborting => (SvcPhase.aborting, SvcStatus.FAILED)
| _ => (SvcPhase.busy, SvcStatus.SUCCESS)

/-- A stop request while a plan is running: the service aborts the run
engine and reports ABORTING until the abort completes.  (The tests do not
exercise stop in other phases; the phase is then left unchanged.) -/
def svcStop : SvcPhase → SvcPhase × SvcStatus
| SvcPhase.busy => (SvcPhase.aborting, SvcStatus.ABORTING)
| p => (p, SvcStatus.FAILED)

/-- The run engine terminating, with `none` for a clean finish or
`some (message, exceptionType)` for a propagated exception (whether during
an abort or on its own). -/
def svcRunEngineDone : SvcPhase → Option (String × String) → SvcPhase
| _, none => SvcPhase.idle
| _, some (msg, ty) => SvcPhase.failed msg ty

/-! ## Concrete environments used to instantiate the theorems -/

/-- An environment where every message succeeds, the scan parameters are
valid at the first check, and zocalo returns the origin with no bounding
box. -/
def envOk : Env :=
  { failMsg := fun _ => false
    scanInvalid := fun _ => false
    posCounter := fun _ => 0
    sampleX := 0
    sampleY := 0
    sampleZ := 0
    zocalo := Except.ok ((0, 0, 0), none)
    aperturePositions := { MEDIUM := [1 / 2], LARGE := [3 / 4] } }

/-- Scan parameters become valid only at the third check (indices 0 and 1
read `scan_invalid` true). -/
def envValidAt2 : Env := { envOk with scanInvalid := fun i => decide (i < 2) }

/-- Scan parameters never become valid. -/
def envNeverValid : Env := { envOk with scanInvalid := fun _ => true }

/-- The blocking zocalo wait raises. -/
def envZocaloFail : Env :=
  { envOk with zocalo := Except.error (PlanErr.exc "no zocalo result") }

/-- Executing the kickoff message raises. -/
def envKickoffFail : Env :=
  { envOk with failMsg := fun m => m == Msg.kickoff Dev.fgsMotors }

/-- Zocalo returns a centre and a bounding box with x component 1 (< 2). -/
def envBBoxSmall : Env :=
  { envOk with zocalo := Except.ok ((1, 2, 3), some ⟨1, 4, 5⟩) }

/-- Zocalo returns a centre and a bounding box with x component 2. -/
def envBBoxLarge : Env :=
  { envOk with zocalo := Except.ok ((1, 2, 3), some ⟨2, 4, 5⟩) }

/-- Index of the first occurrence of a message in a trace (length if absent). -/
def firstIdx (m : Msg) (t : Trace) : ℕ := t.findIdx (fun x => x == m)

/-! # Theorems

First the bookkeeping lemmas for the plan monad and the preprocessor
wrappers, then one theorem per claim (with its witness or counterexample). -/

theorem pbind_ok {α β : Type} (t : Trace) (a : α) (f : α → PlanRes β) :
    pbind (t, Except.ok a) f = (t ++ (f a).1, (f a).2) := rfl

theorem pbind_okRes {α β : Type} {x : PlanRes α} {a : α} (h : x.2 = Except.ok a)
    (f : α → PlanRes β) : pbind x f = (x.1 ++ (f a).1, (f a).2) := by
  obtain ⟨t, r⟩ := x
  cases r with
  | error e => exact absurd h (by simp)
  | ok b =>
    obtain rfl : b = a := by simpa using h
    rfl

theorem pbind_errRes {α β : Type} {x : PlanRes α} {e : PlanErr}
    (h : x.2 = Except.error e) (f : α → PlanRes β) :
    pbind x f = (x.1, Except.error e) := by
  obtain ⟨t, r⟩ := x
  cases r with
  | error e2 =>
    obtain rfl : e2 = e := by simpa using h
    rfl
  | ok b => exact absurd h (by simp)

theorem emit_nofail {env : Env} {m : Msg} (h : env.failMsg m = false) :
    emit env m = ([m], Except.ok ()) := by
  simp [emit, h]

theorem emit_fail {env : Env} {m : Msg} (h : env.failMsg m = true) :
    emit env m = ([m], Except.error (PlanErr.msgFailure m)) := by
  simp [emit, h]

theorem emit_fst (env : Env) (m : Msg) : (emit env m).1 = [m] := rfl

/-- Membership in the trace of a sequenced plan comes from one of the parts. -/
theorem mem_pbind {α β : Type} {m : Msg} {x : PlanRes α} {f : α → PlanRes β}
    (h : m ∈ (pbind x f).1) : m ∈ x.1 ∨ ∃ a, x.2 = Except.ok a ∧ m ∈ (f a).1 := by
  obtain ⟨t, r⟩ := x
  cases r with
  | error e => exact Or.inl (by simpa [pbind] using h)
  | ok a =>
    rcases List.mem_append.1 (by simpa [pbind] using h) with h1 | h2
    · exact Or.inl h1
    · exact Or.inr ⟨a, rfl, h2⟩

theorem finalizeWrapper_fst {α : Type} (p : PlanRes α) (fin : PlanRes Unit) :
    (finalizeWrapper p fin).1 = p.1 ++ fin.1 := by
  obtain ⟨t, r⟩ := p
  cases r <;> rfl

theorem contingencyWrapper_fst {α : Type} (p : PlanRes α)
    (exceptPlan : PlanErr → PlanRes Unit) (elsePlan : PlanRes Unit) :
    (contingencyWrapper p exceptPlan elsePlan).1 =
      p.1 ++ (match p.2 with
        | Except.error e => (exceptPlan e).1
        | Except.ok _ => elsePlan.1) := by
  obtain ⟨t, r⟩ := p
  cases r <;> rfl

theorem emitSeq_nofail {env : Env} (hnf : ∀ m, env.failMsg m = false) :
    ∀ l : List Msg, emitSeq env l = (l, Except.ok ()) := by
  intro l
  induction l with
  | nil => rfl
  | cons m ms ih => rw [emitSeq, emit_nofail (hnf m), pbind_ok, ih]; rfl

/-- A straight-line sequence of stubs either completes or propagates the
failure of one of its own messages. -/
theorem emitSeq_result (env : Env) :
    ∀ l : List Msg, (emitSeq env l).2 = Except.ok () ∨
      ∃ m ∈ l, (emitSeq env l).2 = Except.error (PlanErr.msgFailure m) := by
  intro l
  induction l with
  | nil => exact Or.inl rfl
  | cons m ms ih =>
    by_cases h : env.failMsg m
    · refine Or.inr ⟨m, List.mem_cons_self m ms, ?_⟩
      rw [emitSeq, emit_fail h]
      rfl
    · have hm : env.failMsg m = false := by simpa using h
      rcases ih with h2 | ⟨m2, hm2, h2⟩
      · refine Or.inl ?_
        rw [emitSeq, emit_nofail hm, pbind_ok]
        exact h2
      · refine Or.inr ⟨m2, List.mem_cons_of_mem m hm2, ?_⟩
        rw [emitSeq, emit_nofail hm, pbind_ok]
        exact h2

/-- `int(0.5 / 0.1)` is 5 (exactly 5 checks for the default timeout; this
also matches the IEEE double computation, where `0.5 / 0.1` rounds to
exactly `5.0`). -/
theorem timesToCheck_half : timesToCheck (1 / 2) = 5 := by
  norm_num [timesToCheck, pyInt, SLEEP_PER_CHECK]
  rfl

/-- When the scan first reads as valid at check `i + j` (and `j` does not
exhaust the fuel), the polling loop performs `j` failed checks with their
sleeps and returns after the two reads of check `j`. -/
theorem waitLoop_found {env : Env} (hnf : ∀ m, env.failMsg m = false) :
    ∀ n i j, j < n → (∀ k, k < j → fgsValidAt env (i + k) = false) →
      fgsValidAt env (i + j) = true →
      waitLoop env i n = (checksTrace j ++ checkMsgs, Except.ok ()) := by
  have he : ∀ m, emit env m = ([m], Except.ok ()) := fun m => emit_nofail (hnf m)
  intro n
  induction n with
  | zero => intro i j hj _ _; exact absurd hj (Nat.not_lt_zero j)
  | succ n ih =>
    intro i j hj hprev hval
    cases j with
    | zero =>
      have h0 : fgsValidAt env i = true := by simpa using hval
      simp [waitLoop, he, pbind_ok, h0, ppure, checksTrace, checkMsgs]
    | succ j =>
      have h0 : fgsValidAt env i = false := by simpa using hprev 0 (Nat.succ_pos j)
      have hj' : j < n := Nat.lt_of_succ_lt_succ hj
      have hprev' : ∀ k, k < j → fgsValidAt env (i + 1 + k) = false := by
        intro k hk
        have harith : i + 1 + k = i + (k + 1) := by omega
        rw [harith]
        exact hprev (k + 1) (by omega)
      have hval' : fgsValidAt env (i + 1 + j) = true := by
        have harith : i + 1 + j = i + (j + 1) := by omega
        rw [harith]
        exact hval
      simp [waitLoop, he, pbind_ok, h0, ih (i + 1) j hj' hprev' hval',
        checksTrace, checkMsgs]

/-- When no check within the fuel bound reads as valid, the polling loop
performs every check (each with its sleep) and raises `WarningException`. -/
theorem waitLoop_exhausted {env : Env} (hnf : ∀ m, env.failMsg m = false) :
    ∀ n i, (∀ k, k < n → fgsValidAt env (i + k) = false) →
      waitLoop env i n =
        (checksTrace n, Except.error (PlanErr.warningException scanInvalidMsg)) := by
  have he : ∀ m, emit env m = ([m], Except.ok ()) := fun m => emit_nofail (hnf m)
  intro n
  induction n with
  | zero => intro i _; rfl
  | succ n ih =>
    intro i hall
    have h0 : fgsValidAt env i = false := by simpa using hall 0 (Nat.succ_pos n)
    have hall' : ∀ k, k < n → fgsValidAt env (i + 1 + k) = false := by
      intro k hk
      have harith : i + 1 + k = i + (k + 1) := by omega
      rw [harith]
      exact hall (k + 1) (by omega)
    simp [waitLoop, he, pbind_ok, h0, ih (i + 1) hall', checksTrace, checkMsgs]

/-- C2: `wait_for_gridscan_valid` polls at most `int(timeout / 0.1)` times
with a 0.1 s sleep after each failed check, returns as soon as a check reads
`scan_invalid` false with zero position counter, raises `WarningException`
when no check within the bound succeeds, and the default 0.5 s timeout gives
exactly 5 checks. -/
theorem wait_for_gridscan_valid_bounded_retry (env : Env) (timeout : ℚ)
    (hnf : ∀ m, env.failMsg m = false) :
    (∀ j, j < timesToCheck timeout → (∀ k, k < j → fgsValidAt env k = false) →
      fgsValidAt env j = true →
      wait_for_gridscan_valid env timeout = (checksTrace j ++ checkMsgs, Except.ok ())) ∧
    ((∀ k, k < timesToCheck timeout → fgsValidAt env k = false) →
      wait_for_gridscan_valid env timeout =
        (checksTrace (timesToCheck timeout),
          Except.error (PlanErr.warningException scanInvalidMsg))) ∧
    (∀ k, (checksTrace k).count (Msg.rd Target.scanInvalid) = k ∧
      (checksTrace k ++ checkMsgs).count (Msg.rd Target.scanInvalid) = k + 1) ∧
    timesToCheck (1 / 2) = 5 := by
  refine ⟨?_, ?_, ?_, timesToCheck_half⟩
  · intro j hj hprev hval
    exact waitLoop_found hnf (timesToCheck timeout) 0 j hj
      (fun k hk => by simpa using hprev k hk) (by simpa using hval)
  · intro hall
    exact waitLoop_exhausted hnf (timesToCheck timeout) 0
      (fun k hk => by simpa using hall k hk)
  · intro k
    have hc : ∀ k, (checksTrace k).count (Msg.rd Target.scanInvalid) = k := by
      intro k
      induction k with
      | zero => rfl
      | succ k ih =>
        simp [checksTrace, checkMsgs, List.count_cons, List.count_append, ih]
    refine ⟨hc k, ?_⟩
    simp [List.count_append, hc k, checkMsgs, List.count_cons]

/-- Witness for C2: with validity first read at the third check the loop
returns after 3 checks (2 sleeps); with validity never read, the default
timeout performs all 5 checks and raises. -/
theorem wait_for_gridscan_valid_bounded_retry_witness :
    wait_for_gridscan_valid envValidAt2 (1 / 2) = (checksTrace 2 ++ checkMsgs, Except.ok ()) ∧
    wait_for_gridscan_valid envNeverValid (1 / 2) =
      (checksTrace (timesToCheck (1 / 2)),
        Except.error (PlanErr.warningException scanInvalidMsg)) := by
  constructor
  · exact (wait_for_gridscan_valid_bounded_retry envValidAt2 (1 / 2) (fun _ => rfl)).1 2
      (by rw [timesToCheck_half]; omega)
      (fun k hk => by
        simp only [fgsValidAt, envValidAt2, envOk]
        simp [decide_eq_true hk])
      (by decide)
  · exact (wait_for_gridscan_valid_bounded_retry envNeverValid (1 / 2) (fun _ => rfl)).2.1
      (fun k _ => by simp [fgsValidAt, envNeverValid, envOk])

/-- The trace of a run-bracketed plan is the open-run message, the trace of the plan,
and a close-run message (successful exit status iff the plan returned). -/
theorem runWrapper_trace {α : Type} {env : Env} {key : String}
    (hopen : env.failMsg (Msg.openRun key) = false) (p : PlanRes α) :
    ∃ b, (runWrapper env key p).1 = Msg.openRun key :: (p.1 ++ [Msg.closeRun key b]) := by
  obtain ⟨t, r⟩ := p
  rw [runWrapper, emit_nofail hopen, pbind_ok]
  cases r with
  | error e => exact ⟨false, by simp [contingencyWrapper, emit]⟩
  | ok a => exact ⟨true, by simp [contingencyWrapper, emit]⟩

/-- The undecorated `do_fgs` body yields only the wait, kickoff and
complete messages. -/
theorem do_fgs_inner_msgs (env : Env) : ∀ m ∈ (do_fgs_inner env).1,
    m = Msg.waitFor none ∨ m = Msg.kickoff Dev.fgsMotors ∨
      m = Msg.complete Dev.fgsMotors true := by
  intro m hm
  rw [do_fgs_inner] at hm
  rcases mem_pbind hm with h | ⟨_, _, h⟩
  · exact Or.inl (by simpa [emit] using h)
  · rcases mem_pbind h with h2 | ⟨_, _, h2⟩
    · exact Or.inr (Or.inl (by simpa [emit] using h2))
    · exact Or.inr (Or.inr (by simpa [emit] using h2))

/-- C3: in `do_fgs` exactly one contingency branch runs — when the
wait/kickoff/complete body raises, the Eiger is stopped and not unstaged,
and when it completes, the Eiger is unstaged and not stopped; either way a
release action on the detector is in the trace when `do_fgs` finishes. -/
theorem do_fgs_single_contingency_branch (env : Env)
    (hopen : env.failMsg (Msg.openRun "do_fgs") = false) :
    ((do_fgs_inner env).2 = Except.ok () →
      Msg.unstage Dev.eiger ∈ (do_fgs env).1 ∧
        Msg.stopDev Dev.eiger ∉ (do_fgs env).1) ∧
    (∀ e, (do_fgs_inner env).2 = Except.error e →
      Msg.stopDev Dev.eiger ∈ (do_fgs env).1 ∧
        Msg.unstage Dev.eiger ∉ (do_fgs env).1) := by
  constructor
  · intro hok
    have hC : (contingencyWrapper (do_fgs_inner env)
        (fun _ => emit env (Msg.stopDev Dev.eiger))
        (emit env (Msg.unstage Dev.eiger))).1 =
        (do_fgs_inner env).1 ++ [Msg.unstage Dev.eiger] := by
      rw [contingencyWrapper_fst, hok]
      rfl
    obtain ⟨b, hb⟩ := runWrapper_trace hopen (contingencyWrapper (do_fgs_inner env)
      (fun _ => emit env (Msg.stopDev Dev.eiger)) (emit env (Msg.unstage Dev.eiger)))
    rw [do_fgs, hb, hC]
    constructor
    · simp
    · intro hmem
      simp at hmem
      rcases do_fgs_inner_msgs env _ hmem with h2 | h2 | h2 <;> exact Msg.noConfusion h2
  · intro e herr
    have hC : (contingencyWrapper (do_fgs_inner env)
        (fun _ => emit env (Msg.stopDev Dev.eiger))
        (emit env (Msg.unstage Dev.eiger))).1 =
        (do_fgs_inner env).1 ++ [Msg.stopDev Dev.eiger] := by
      rw [contingencyWrapper_fst, herr]
      rfl
    obtain ⟨b, hb⟩ := runWrapper_trace hopen (contingencyWrapper (do_fgs_inner env)
      (fun _ => emit env (Msg.stopDev Dev.eiger)) (emit env (Msg.unstage Dev.eiger)))
    rw [do_fgs, hb, hC]
    constructor
    · simp
    · intro hmem
      simp at hmem
      rcases do_fgs_inner_msgs env _ hmem with h2 | h2 | h2 <;> exact Msg.noConfusion h2

/-- Witness for C3: with every message succeeding the Eiger is unstaged and
not stopped; with the kickoff raising, the Eiger is stopped and not
unstaged. -/
theorem do_fgs_single_contingency_branch_witness :
    (Msg.unstage Dev.eiger ∈ (do_fgs envOk).1 ∧
      Msg.stopDev Dev.eiger ∉ (do_fgs envOk).1) ∧
    (Msg.stopDev Dev.eiger ∈ (do_fgs envKickoffFail).1 ∧
      Msg.unstage Dev.eiger ∉ (do_fgs envKickoffFail).1) :=
  ⟨(do_fgs_single_contingency_branch envOk rfl).1 rfl,
    (do_fgs_single_contingency_branch envKickoffFail rfl).2
      (PlanErr.msgFailure (Msg.kickoff Dev.fgsMotors)) rfl⟩

/-- With no message failing, `do_fgs` completes with the explicit
open/wait/kickoff/complete/unstage/close trace. -/
theorem do_fgs_ok {env : Env} (hnf : ∀ m, env.failMsg m = false) :
    do_fgs env =
      ([Msg.openRun "do_fgs", Msg.waitFor none, Msg.kickoff Dev.fgsMotors,
        Msg.complete Dev.fgsMotors true, Msg.unstage Dev.eiger,
        Msg.closeRun "do_fgs" true], Except.ok ()) := by
  have he : ∀ m, emit env m = ([m], Except.ok ()) := fun m => emit_nofail (hnf m)
  have hinner : do_fgs_inner env =
      ([Msg.waitFor none, Msg.kickoff Dev.fgsMotors, Msg.complete Dev.fgsMotors true],
        Except.ok ()) := by
    rw [do_fgs_inner, he, pbind_ok, he, pbind_ok, he]
    rfl
  rw [do_fgs, runWrapper, he, pbind_ok, hinner]
  simp [contingencyWrapper, he]

/-- When every check reads valid from the start, the default-timeout wait
returns after the first two reads. -/
theorem wait_ok_of_validAt0 (env : Env) (hnf : ∀ m, env.failMsg m = false)
    (h0 : fgsValidAt env 0 = true) :
    wait_for_gridscan_valid env (1 / 2) = (checkMsgs, Except.ok ()) := by
  have hw := waitLoop_found hnf (timesToCheck (1 / 2)) 0 0
    (by rw [timesToCheck_half]; omega)
    (fun k hk => absurd hk (Nat.not_lt_zero k)) (by simpa using h0)
  rw [wait_for_gridscan_valid, hw]
  rfl

/-- With no message failing and the validity wait returning, `run_gridscan`
completes with the explicit trace: omega move, ispyb readings, parameter
write, the validity polling, the arming wait and Eiger stage, the `do_fgs`
scan, and the z-steps reset. -/
theorem run_gridscan_eq (env : Env) (hnf : ∀ m, env.failMsg m = false)
    (hv : (wait_for_gridscan_valid env (1 / 2)).2 = Except.ok ()) :
    run_gridscan env =
      ([Msg.openRun "run_gridscan", Msg.absSet Target.sampleOmega (Value.num 0)]
        ++ ispybReadMsgs ++ [Msg.absSet Target.fgsParams Value.scanParams]
        ++ (wait_for_gridscan_valid env (1 / 2)).1
        ++ [Msg.waitFor (some "ready_for_data_collection"), Msg.stage Dev.eiger,
            Msg.openRun "do_fgs", Msg.waitFor none, Msg.kickoff Dev.fgsMotors,
            Msg.complete Dev.fgsMotors true, Msg.unstage Dev.eiger,
            Msg.closeRun "do_fgs" true, Msg.absSet Target.zSteps (Value.num 0),
            Msg.closeRun "run_gridscan" true],
        Except.ok ()) := by
  have he : ∀ m, emit env m = ([m], Except.ok ()) := fun m => emit_nofail (hnf m)
  have hread : read_hardware_for_ispyb env = (ispybReadMsgs, Except.ok ()) := by
    rw [read_hardware_for_ispyb, emitSeq_nofail hnf]
  rcases hw : wait_for_gridscan_valid env (1 / 2) with ⟨wt, wr⟩
  have hwr : wr = Except.ok () := by rw [hw] at hv; exact hv
  subst hwr
  have hbody : run_gridscan_body env =
      (Msg.absSet Target.sampleOmega (Value.num 0) ::
        (ispybReadMsgs ++ [Msg.absSet Target.fgsParams Value.scanParams]
          ++ wt
          ++ [Msg.waitFor (some "ready_for_data_collection"), Msg.stage Dev.eiger,
              Msg.openRun "do_fgs", Msg.waitFor none, Msg.kickoff Dev.fgsMotors,
              Msg.complete Dev.fgsMotors true, Msg.unstage Dev.eiger,
              Msg.closeRun "do_fgs" true, Msg.absSet Target.zSteps (Value.num 0)]),
        Except.ok ()) := by
    rw [run_gridscan_body, he, pbind_ok, hread, pbind_ok, set_flyscan_params, he,
      pbind_ok, hw, pbind_ok, he, pbind_ok, he, pbind_ok, do_fgs_ok hnf, pbind_ok, he]
    simp
  rw [run_gridscan, runWrapper, he, pbind_ok, hbody]
  simp [contingencyWrapper, he, hw]

/-- With no message failing, `set_aperture_for_bbox_size` completes with
the explicit change-aperture run trace. -/
theorem set_aperture_ok {env : Env} (hnf : ∀ m, env.failMsg m = false) (bb : BBoxSize) :
    set_aperture_for_bbox_size env bb =
      ([Msg.openRun "change_aperture",
        Msg.absSet Target.aperture (Value.apPos (aperture_for_bbox_size env bb)),
        Msg.closeRun "change_aperture" true], Except.ok ()) := by
  have he : ∀ m, emit env m = ([m], Except.ok ()) := fun m => emit_nofail (hnf m)
  rw [set_aperture_for_bbox_size, runWrapper, he, pbind_ok]
  simp [contingencyWrapper, he]

/-- With no message failing, the validity wait returning and zocalo
returning a centre with an optional bounding box, `run_gridscan_and_move`
completes with the explicit trace: initial position reads, zebra setup, the
gridscan, the aperture change exactly when a bounding box was returned, and
finally the move to the returned centre. -/
theorem run_gridscan_and_move_eq {env : Env} {c : ℚ × ℚ × ℚ} {bbox : Option BBoxSize}
    (hnf : ∀ m, env.failMsg m = false)
    (hv : (wait_for_gridscan_valid env (1 / 2)).2 = Except.ok ())
    (hz : env.zocalo = Except.ok (c, bbox)) :
    run_gridscan_and_move env =
      (Msg.openRun "run_gridscan_and_move" :: Msg.rd Target.sampleX ::
        Msg.rd Target.sampleY :: Msg.rd Target.sampleZ ::
        Msg.absSet Target.zebraGateForGridscan (Value.sel 1) ::
        ((run_gridscan env).1
          ++ (match bbox with
              | some bb => (set_aperture_for_bbox_size env bb).1
              | none => [])
          ++ (move_x_y_z env c).1
          ++ [Msg.closeRun "run_gridscan_and_move" true]),
        Except.ok ()) := by
  have he : ∀ m, emit env m = ([m], Except.ok ()) := fun m => emit_nofail (hnf m)
  have hrg := run_gridscan_eq env hnf hv
  have hmove : move_x_y_z env c =
      ([Msg.absSet Target.sampleX (Value.num c.1), Msg.absSet Target.sampleY (Value.num c.2.1),
        Msg.absSet Target.sampleZ (Value.num c.2.2), Msg.waitFor none], Except.ok ()) := by
    rw [move_x_y_z, emitSeq_nofail hnf]
  have hap : ∀ a : (ℚ × ℚ × ℚ) × Option BBoxSize,
      (match a.2 with
        | some bb => set_aperture_for_bbox_size env bb
        | none => ppure ()) =
      ((match a.2 with
        | some bb => (set_aperture_for_bbox_size env bb).1
        | none => []), Except.ok ()) := by
    intro a
    rcases a with ⟨c2, bb⟩
    cases bb with
    | none => rfl
    | some bb2 => simp [set_aperture_ok hnf bb2]
  have hbody : run_gridscan_and_move_body env =
      (Msg.rd Target.sampleX :: Msg.rd Target.sampleY :: Msg.rd Target.sampleZ ::
        Msg.absSet Target.zebraGateForGridscan (Value.sel 1) ::
        ((run_gridscan env).1
          ++ (match bbox with
              | some bb => (set_aperture_for_bbox_size env bb).1
              | none => [])
          ++ (move_x_y_z env c).1),
        Except.ok ()) := by
    rw [run_gridscan_and_move_body, he, pbind_ok, he, pbind_ok, he, pbind_ok,
      setup_zebra_for_gridscan, he, pbind_ok]
    rw [pbind_okRes (congrArg Prod.snd hrg), pbind_okRes (x := pyCall env.zocalo)
      (a := (c, bbox)) (by rw [pyCall, hz]), hap ((c, bbox)), pbind_ok, hmove]
    simp [pyCall]
    cases bbox <;> rfl
  rw [run_gridscan_and_move, runWrapper, he, pbind_ok, hbody]
  simp [contingencyWrapper, he]

/-- When the zocalo wait raises, `run_gridscan_and_move` stops after the
gridscan: neither an aperture change nor a move is issued, and the
exception propagates. -/
theorem run_gridscan_and_move_zocalo_error (env : Env) {e : PlanErr}
    (hnf : ∀ m, env.failMsg m = false)
    (hv : (wait_for_gridscan_valid env (1 / 2)).2 = Except.ok ())
    (hz : env.zocalo = Except.error e) :
    run_gridscan_and_move env =
      (Msg.openRun "run_gridscan_and_move" :: Msg.rd Target.sampleX ::
        Msg.rd Target.sampleY :: Msg.rd Target.sampleZ ::
        Msg.absSet Target.zebraGateForGridscan (Value.sel 1) ::
        ((run_gridscan env).1 ++ [Msg.closeRun "run_gridscan_and_move" false]),
        Except.error e) := by
  have he : ∀ m, emit env m = ([m], Except.ok ()) := fun m => emit_nofail (hnf m)
  have hrg := run_gridscan_eq env hnf hv
  have hbody : run_gridscan_and_move_body env =
      (Msg.rd Target.sampleX :: Msg.rd Target.sampleY :: Msg.rd Target.sampleZ ::
        Msg.absSet Target.zebraGateForGridscan (Value.sel 1) :: (run_gridscan env).1,
        Except.error e) := by
    rw [run_gridscan_and_move_body, he, pbind_ok, he, pbind_ok, he, pbind_ok,
      setup_zebra_for_gridscan, he, pbind_ok]
    rw [pbind_okRes (congrArg Prod.snd hrg), pbind_errRes (x := pyCall env.zocalo)
      (e := e) (by rw [pyCall, hz])]
    simp [pyCall]
  rw [run_gridscan_and_move, runWrapper, he, pbind_ok, hbody]
  simp [contingencyWrapper, he]

/-- C1: every execution of `flyscan_xray_centre` that reaches the inner
plan runs the tidy-up plan (returning the zebra shutter to manual)
immediately after `run_gridscan_and_move`, both when the inner plan
completes and when it propagates any exception — the trace decomposition
below holds for every environment, whatever `(run_gridscan_and_move env).2`
is. -/
theorem flyscan_xray_centre_always_tidies (env : Env)
    (hsub : env.failMsg Msg.subscribe = false)
    (hopen : env.failMsg (Msg.openRun "run_gridscan_move_and_tidy") = false) :
    ∃ b, (flyscan_xray_centre env).1 =
      Msg.subscribe :: Msg.openRun "run_gridscan_move_and_tidy" ::
        ((run_gridscan_and_move env).1 ++ (tidy_up_plans env).1 ++
          [Msg.closeRun "run_gridscan_move_and_tidy" b, Msg.unsubscribe]) := by
  obtain ⟨b, hb⟩ := runWrapper_trace hopen
    (finalizeWrapper (run_gridscan_and_move env) (tidy_up_plans env))
  refine ⟨b, ?_⟩
  rw [flyscan_xray_centre, subsWrapper, emit_nofail hsub, pbind_ok,
    finalizeWrapper_fst, hb, finalizeWrapper_fst]
  simp [emit]

/-- Witness for C1: the decomposition at an environment where the inner
plan succeeds and at one where the zocalo wait raises, so the inner plan
propagates an exception. -/
theorem flyscan_xray_centre_always_tidies_witness :
    (∃ b, (flyscan_xray_centre envOk).1 =
      Msg.subscribe :: Msg.openRun "run_gridscan_move_and_tidy" ::
        ((run_gridscan_and_move envOk).1 ++ (tidy_up_plans envOk).1 ++
          [Msg.closeRun "run_gridscan_move_and_tidy" b, Msg.unsubscribe])) ∧
    ((run_gridscan_and_move envZocaloFail).2 =
      Except.error (PlanErr.exc "no zocalo result") ∧
      ∃ b, (flyscan_xray_centre envZocaloFail).1 =
        Msg.subscribe :: Msg.openRun "run_gridscan_move_and_tidy" ::
          ((run_gridscan_and_move envZocaloFail).1 ++ (tidy_up_plans envZocaloFail).1 ++
            [Msg.closeRun "run_gridscan_move_and_tidy" b, Msg.unsubscribe])) :=
  ⟨flyscan_xray_centre_always_tidies envOk rfl rfl,
    congrArg Prod.snd (run_gridscan_and_move_zocalo_error envZocaloFail
      (fun _ => rfl) (by rw [wait_ok_of_validAt0 envZocaloFail (fun _ => rfl) rfl]) rfl),
    flyscan_xray_centre_always_tidies envZocaloFail rfl rfl⟩

/-- C5: on every execution where the zocalo wait returns (and the scan ran:
no message failure and the validity wait succeeded), the sample motors are
moved to the returned centre — with or without a bounding-box size — and
the move comes after any aperture change, which comes after the whole
gridscan. -/
theorem run_gridscan_and_move_always_moves_to_centre (env : Env) (c : ℚ × ℚ × ℚ)
    (bbox : Option BBoxSize)
    (hnf : ∀ m, env.failMsg m = false)
    (hv : (wait_for_gridscan_valid env (1 / 2)).2 = Except.ok ())
    (hz : env.zocalo = Except.ok (c, bbox)) :
    (run_gridscan_and_move env).1 =
      Msg.openRun "run_gridscan_and_move" :: Msg.rd Target.sampleX ::
        Msg.rd Target.sampleY :: Msg.rd Target.sampleZ ::
        Msg.absSet Target.zebraGateForGridscan (Value.sel 1) ::
        ((run_gridscan env).1
          ++ (match bbox with
              | some bb => (set_aperture_for_bbox_size env bb).1
              | none => [])
          ++ (move_x_y_z env c).1
          ++ [Msg.closeRun "run_gridscan_and_move" true]) := by
  rw [run_gridscan_and_move_eq hnf hv hz]

/-- Witness for C5 at a bounding-box-less environment and at one with a
bounding box: in both, the move to the returned centre closes the plan. -/
theorem run_gridscan_and_move_always_moves_to_centre_witness :
    ((run_gridscan_and_move envOk).1 =
      Msg.openRun "run_gridscan_and_move" :: Msg.rd Target.sampleX ::
        Msg.rd Target.sampleY :: Msg.rd Target.sampleZ ::
        Msg.absSet Target.zebraGateForGridscan (Value.sel 1) ::
        ((run_gridscan envOk).1 ++ [] ++ (move_x_y_z envOk (0, 0, 0)).1
          ++ [Msg.closeRun "run_gridscan_and_move" true])) ∧
    ((run_gridscan_and_move envBBoxLarge).1 =
      Msg.openRun "run_gridscan_and_move" :: Msg.rd Target.sampleX ::
        Msg.rd Target.sampleY :: Msg.rd Target.sampleZ ::
        Msg.absSet Target.zebraGateForGridscan (Value.sel 1) ::
        ((run_gridscan envBBoxLarge).1
          ++ (set_aperture_for_bbox_size envBBoxLarge ⟨2, 4, 5⟩).1
          ++ (move_x_y_z envBBoxLarge (1, 2, 3)).1
          ++ [Msg.closeRun "run_gridscan_and_move" true])) := by
  constructor
  · have h := run_gridscan_and_move_always_moves_to_centre envOk (0, 0, 0) none
      (fun _ => rfl) (by rw [wait_ok_of_validAt0 envOk (fun _ => rfl) rfl]) rfl
    simpa using h
  · have h := run_gridscan_and_move_always_moves_to_centre envBBoxLarge (1, 2, 3)
      (some ⟨2, 4, 5⟩)
      (fun _ => rfl) (by rw [wait_ok_of_validAt0 envBBoxLarge (fun _ => rfl) rfl]) rfl
    simpa using h

/-- C8 (amended): within `run_gridscan` the order is — scan parameters are
written, then the plan waits for them to be valid with bounded retry, then
the detector is armed (the wait on the arming group and the Eiger stage),
and then the scan is executed (kickoff and complete inside `do_fgs`). -/
theorem run_gridscan_validity_wait_then_arm_then_scan (env : Env)
    (hnf : ∀ m, env.failMsg m = false)
    (hv : (wait_for_gridscan_valid env (1 / 2)).2 = Except.ok ()) :
    (run_gridscan env).1 =
      [Msg.openRun "run_gridscan", Msg.absSet Target.sampleOmega (Value.num 0)]
        ++ ispybReadMsgs ++ [Msg.absSet Target.fgsParams Value.scanParams]
        ++ (wait_for_gridscan_valid env (1 / 2)).1
        ++ [Msg.waitFor (some "ready_for_data_collection"), Msg.stage Dev.eiger,
            Msg.openRun "do_fgs", Msg.waitFor none, Msg.kickoff Dev.fgsMotors,
            Msg.complete Dev.fgsMotors true, Msg.unstage Dev.eiger,
            Msg.closeRun "do_fgs" true, Msg.absSet Target.zSteps (Value.num 0),
            Msg.closeRun "run_gridscan" true] := by
  rw [run_gridscan_eq env hnf hv]

/-- Witness for the amended C8 at the all-success environment. -/
theorem run_gridscan_validity_wait_then_arm_then_scan_witness :
    (run_gridscan envOk).1 =
      [Msg.openRun "run_gridscan", Msg.absSet Target.sampleOmega (Value.num 0)]
        ++ ispybReadMsgs ++ [Msg.absSet Target.fgsParams Value.scanParams]
        ++ (wait_for_gridscan_valid envOk (1 / 2)).1
        ++ [Msg.waitFor (some "ready_for_data_collection"), Msg.stage Dev.eiger,
            Msg.openRun "do_fgs", Msg.waitFor none, Msg.kickoff Dev.fgsMotors,
            Msg.complete Dev.fgsMotors true, Msg.unstage Dev.eiger,
            Msg.closeRun "do_fgs" true, Msg.absSet Target.zSteps (Value.num 0),
            Msg.closeRun "run_gridscan" true] :=
  run_gridscan_validity_wait_then_arm_then_scan envOk (fun _ => rfl)
    (by rw [wait_ok_of_validAt0 envOk (fun _ => rfl) rfl])

/-- C8 counterexample: in the all-success execution of `run_gridscan`, the
detector stage (arming) does not precede the first validity-wait read —
the claimed order "arms the detector, then waits for valid scan
parameters" is false on the code; the wait comes first. -/
theorem run_gridscan_arming_order_counterexample :
    Msg.stage Dev.eiger ∈ (run_gridscan envOk).1 ∧
    Msg.rd Target.scanInvalid ∈ (run_gridscan envOk).1 ∧
    ¬ firstIdx (Msg.stage Dev.eiger) (run_gridscan envOk).1
        < firstIdx (Msg.rd Target.scanInvalid) (run_gridscan envOk).1 ∧
    ¬ firstIdx (Msg.waitFor (some "ready_for_data_collection")) (run_gridscan envOk).1
        < firstIdx (Msg.rd Target.scanInvalid) (run_gridscan envOk).1 := by
  have ht : (run_gridscan envOk).1 =
      [Msg.openRun "run_gridscan", Msg.absSet Target.sampleOmega (Value.num 0)]
        ++ ispybReadMsgs ++ [Msg.absSet Target.fgsParams Value.scanParams]
        ++ checkMsgs
        ++ [Msg.waitFor (some "ready_for_data_collection"), Msg.stage Dev.eiger,
            Msg.openRun "do_fgs", Msg.waitFor none, Msg.kickoff Dev.fgsMotors,
            Msg.complete Dev.fgsMotors true, Msg.unstage Dev.eiger,
            Msg.closeRun "do_fgs" true, Msg.absSet Target.zSteps (Value.num 0),
            Msg.closeRun "run_gridscan" true] := by
    have h := congrArg Prod.fst
      (run_gridscan_eq envOk (fun _ => rfl)
        (by rw [wait_ok_of_validAt0 envOk (fun _ => rfl) rfl]))
    rw [wait_ok_of_validAt0 envOk (fun _ => rfl) rfl] at h
    exact h
  rw [ht]
  refine ⟨by simp [ispybReadMsgs, checkMsgs], by simp [ispybReadMsgs, checkMsgs], ?_, ?_⟩
  · decide
  · decide

/-- Membership in an `emitSeq` trace comes from the message list. -/
theorem mem_emitSeq (env : Env) : ∀ (l : List Msg) (m : Msg),
    m ∈ (emitSeq env l).1 → m ∈ l := by
  intro l
  induction l with
  | nil => intro m hm; simp [emitSeq, ppure] at hm
  | cons x xs ih =>
    intro m hm
    rw [emitSeq] at hm
    rcases mem_pbind hm with h | ⟨_, _, h⟩
    · simp [emit] at h
      simp [h]
    · exact List.mem_cons_of_mem x (ih m h)

/-- The polling loop only ever yields the two validity reads and the sleep. -/
theorem waitLoop_msgs (env : Env) : ∀ (n i : ℕ) (m : Msg),
    m ∈ (waitLoop env i n).1 →
    m = Msg.rd Target.scanInvalid ∨ m = Msg.rd Target.positionCounter ∨
      m = Msg.sleep SLEEP_PER_CHECK := by
  intro n
  induction n with
  | zero => intro i m hm; simp [waitLoop] at hm
  | succ n ih =>
    intro i m hm
    rw [waitLoop] at hm
    rcases mem_pbind hm with h | ⟨_, _, h⟩
    · exact Or.inl (by simpa [emit] using h)
    rcases mem_pbind h with h2 | ⟨_, _, h2⟩
    · exact Or.inr (Or.inl (by simpa [emit] using h2))
    by_cases hvld : fgsValidAt env i
    · rw [if_pos hvld] at h2
      simp [ppure] at h2
    · rw [if_neg hvld] at h2
      rcases mem_pbind h2 with h3 | ⟨_, _, h3⟩
      · exact Or.inr (Or.inr (by simpa [emit] using h3))
      · exact ih (i + 1) m h3

/-- Membership in a contingency-wrapped trace comes from the plan, the
except plan at some exception, or the else plan. -/
theorem mem_contingency {α : Type} {m : Msg} {p : PlanRes α}
    {ex : PlanErr → PlanRes Unit} {el : PlanRes Unit}
    (h : m ∈ (contingencyWrapper p ex el).1) :
    m ∈ p.1 ∨ (∃ e, m ∈ (ex e).1) ∨ m ∈ el.1 := by
  rw [contingencyWrapper_fst] at h
  rcases List.mem_append.1 h with h1 | h2
  · exact Or.inl h1
  · rcases hp : p.2 with e | a
    · rw [hp] at h2
      exact Or.inr (Or.inl ⟨e, by simpa using h2⟩)
    · rw [hp] at h2
      exact Or.inr (Or.inr (by simpa using h2))

/-- Membership in a run-wrapped trace is the open-run message, the plan
own trace, or a close-run message. -/
theorem runWrapper_msgs {α : Type} {env : Env} {key : String} {p : PlanRes α} {m : Msg}
    (h : m ∈ (runWrapper env key p).1) :
    m = Msg.openRun key ∨ m ∈ p.1 ∨ m = Msg.closeRun key false ∨
      m = Msg.closeRun key true := by
  rw [runWrapper] at h
  rcases mem_pbind h with h1 | ⟨_, _, h1⟩
  · exact Or.inl (by simpa [emit] using h1)
  · rcases mem_contingency h1 with h2 | ⟨e, h2⟩ | h2
    · exact Or.inr (Or.inl h2)
    · exact Or.inr (Or.inr (Or.inl (by simpa [emit] using h2)))
    · exact Or.inr (Or.inr (Or.inr (by simpa [emit] using h2)))

/-- `do_fgs` never sets the aperture. -/
theorem apfree_do_fgs (env : Env) (v : Value) :
    Msg.absSet Target.aperture v ∉ (do_fgs env).1 := by
  intro hm
  rw [do_fgs] at hm
  rcases runWrapper_msgs hm with h | h | h | h
  · exact Msg.noConfusion h
  · rcases mem_contingency h with h2 | ⟨e, h2⟩ | h2
    · rcases do_fgs_inner_msgs env _ h2 with h3 | h3 | h3 <;> exact Msg.noConfusion h3
    · simp [emit] at h2
    · simp [emit] at h2
  · exact Msg.noConfusion h
  · exact Msg.noConfusion h

/-- `run_gridscan` never sets the aperture. -/
theorem apfree_run_gridscan (env : Env) (v : Value) :
    Msg.absSet Target.aperture v ∉ (run_gridscan env).1 := by
  intro hm
  rw [run_gridscan] at hm
  rcases runWrapper_msgs hm with h | h | h | h
  · exact Msg.noConfusion h
  · rw [run_gridscan_body] at h
    rcases mem_pbind h with h | ⟨_, _, h⟩
    · simp [emit] at h
    rcases mem_pbind h with h | ⟨_, _, h⟩
    · rw [read_hardware_for_ispyb] at h
      have h2 := mem_emitSeq env _ _ h
      simp [ispybReadMsgs] at h2
    rcases mem_pbind h with h | ⟨_, _, h⟩
    · rw [set_flyscan_params] at h
      simp [emit] at h
    rcases mem_pbind h with h | ⟨_, _, h⟩
    · rw [wait_for_gridscan_valid] at h
      rcases waitLoop_msgs env _ _ _ h with h3 | h3 | h3 <;> exact Msg.noConfusion h3
    rcases mem_pbind h with h | ⟨_, _, h⟩
    · simp [emit] at h
    rcases mem_pbind h with h | ⟨_, _, h⟩
    · simp [emit] at h
    rcases mem_pbind h with h | ⟨_, _, h⟩
    · exact apfree_do_fgs env v h
    · simp [emit] at h
  · exact Msg.noConfusion h
  · exact Msg.noConfusion h

/-- C4: the aperture selection depends only on the x component of the
bounding box — MEDIUM when `bbox_size[0] < 2`, LARGE otherwise — and when
zocalo returns no bounding-box size, `run_gridscan_and_move` performs no
aperture change at all. -/
theorem set_aperture_for_bbox_size_spec (env : Env) :
    (∀ b b2 : BBoxSize, b.x = b2.x →
      set_aperture_for_bbox_size env b = set_aperture_for_bbox_size env b2) ∧
    (∀ bb : BBoxSize, aperture_for_bbox_size env bb =
      if bb.x < 2 then env.aperturePositions.MEDIUM else env.aperturePositions.LARGE) ∧
    ((∀ m, env.failMsg m = false) → ∀ bb : BBoxSize,
      set_aperture_for_bbox_size env bb =
        ([Msg.openRun "change_aperture",
          Msg.absSet Target.aperture (Value.apPos (aperture_for_bbox_size env bb)),
          Msg.closeRun "change_aperture" true], Except.ok ())) ∧
    (∀ c : ℚ × ℚ × ℚ, env.zocalo = Except.ok (c, none) →
      ∀ v, Msg.absSet Target.aperture v ∉ (run_gridscan_and_move env).1) := by
  refine ⟨?_, fun bb => rfl, fun hnf bb => set_aperture_ok hnf bb, ?_⟩
  · intro b b2 hx
    rw [set_aperture_for_bbox_size, set_aperture_for_bbox_size,
      aperture_for_bbox_size, aperture_for_bbox_size, hx]
  · intro c hz v hm
    rw [run_gridscan_and_move] at hm
    rcases runWrapper_msgs hm with h | h | h | h
    · exact Msg.noConfusion h
    · rw [run_gridscan_and_move_body] at h
      rcases mem_pbind h with h | ⟨_, _, h⟩
      · simp [emit] at h
      rcases mem_pbind h with h | ⟨_, _, h⟩
      · simp [emit] at h
      rcases mem_pbind h with h | ⟨_, _, h⟩
      · simp [emit] at h
      rcases mem_pbind h with h | ⟨_, _, h⟩
      · rw [setup_zebra_for_gridscan] at h
        simp [emit] at h
      rcases mem_pbind h with h | ⟨_, _, h⟩
      · exact apfree_run_gridscan env v h
      rcases mem_pbind h with h | ⟨a, ha, h⟩
      · simp [pyCall] at h
      have haa : a = (c, none) := by
        rw [pyCall, hz] at ha
        simpa using ha.symm
      subst haa
      rcases mem_pbind h with h | ⟨_, _, h⟩
      · simp [ppure] at h
      · rw [move_x_y_z] at h
        have h2 := mem_emitSeq env _ _ h
        simp at h2
    · exact Msg.noConfusion h
    · exact Msg.noConfusion h

/-- Witness for C4: with a bounding box of x component 1 the change-aperture
run sets the selected (MEDIUM) position; with no bounding box returned, no
aperture set message is in the trace of the whole plan. -/
theorem set_aperture_for_bbox_size_spec_witness :
    (set_aperture_for_bbox_size envBBoxSmall ⟨1, 4, 5⟩ =
      ([Msg.openRun "change_aperture",
        Msg.absSet Target.aperture
          (Value.apPos (aperture_for_bbox_size envBBoxSmall ⟨1, 4, 5⟩)),
        Msg.closeRun "change_aperture" true], Except.ok ())) ∧
    Msg.absSet Target.aperture (Value.apPos envOk.aperturePositions.MEDIUM)
      ∉ (run_gridscan_and_move envOk).1 :=
  ⟨(set_aperture_for_bbox_size_spec envBBoxSmall).2.2.1 (fun _ => rfl) ⟨1, 4, 5⟩,
    (set_aperture_for_bbox_size_spec envOk).2.2.2 (0, 0, 0) rfl _⟩

/-- C10: equality of `IspybParams` is determined entirely by JSON
serialisation — `__eq__` on two `IspybParams` values holds exactly when
their `to_json` serialisations are equal, and `__eq__` against a value of
any other type returns `NotImplemented` rather than `False`. -/
theorem ispybParams_eq_is_json_eq (a b : IspybParams) (tag : String) :
    (IspybParams.pyEq a (PyVal.ispyb b) = PyCmp.bool true ↔
      IspybParams.to_json a = IspybParams.to_json b) ∧
    IspybParams.pyEq a (PyVal.otherVal tag) = PyCmp.notImplemented := by
  refine ⟨?_, rfl⟩
  simp [IspybParams.pyEq]

/-- C6: the run-control service runs at most one plan at a time — a start
request while the reported status is busy leaves the service unchanged and
answers FAILED, while a start request while idle answers SUCCESS and makes
the service busy. -/
theorem service_single_flight (p : SvcPhase) :
    (svcStatusOf p = SvcStatus.BUSY → svcStart p = (p, SvcStatus.FAILED)) ∧
    (svcStatusOf p = SvcStatus.IDLE →
      (svcStart p).2 = SvcStatus.SUCCESS ∧ svcStatusOf (svcStart p).1 = SvcStatus.BUSY) := by
  cases p <;> simp [svcStatusOf, svcStart]

/-- Witness for C6 at the two phases the claim speaks about. -/
theorem service_single_flight_witness :
    svcStart SvcPhase.busy = (SvcPhase.busy, SvcStatus.FAILED) ∧
    (svcStart SvcPhase.idle).2 = SvcStatus.SUCCESS ∧
    svcStatusOf (svcStart SvcPhase.idle).1 = SvcStatus.BUSY :=
  ⟨(service_single_flight SvcPhase.busy).1 rfl,
    (service_single_flight SvcPhase.idle).2 rfl⟩

/-- C7: a stop request while a plan runs puts the service in the aborting
phase, which reports ABORTING, and nothing but run-engine termination
leaves it; termination with an exception (during an abort or not) makes the
reported status FAILED carrying the message and type of the exception, and clean
termination returns the service to IDLE. -/
theorem service_abort_and_failure_reporting (p : SvcPhase) (msg ty : String) :
    svcStop SvcPhase.busy = (SvcPhase.aborting, SvcStatus.ABORTING) ∧
    svcStatusOf SvcPhase.aborting = SvcStatus.ABORTING ∧
    (svcStart SvcPhase.aborting).1 = SvcPhase.aborting ∧
    svcRunEngineDone p (some (msg, ty)) = SvcPhase.failed msg ty ∧
    svcStatusOf (SvcPhase.failed msg ty) = SvcStatus.FAILED ∧
    svcRunEngineDone p none = SvcPhase.idle := by
  cases p <;> exact ⟨rfl, rfl, rfl, rfl, rfl, rfl⟩

/-- C9: `setup_zebra_for_rotation` raises for every exposure time below the
0.005 s minimum, before any zebra command has been issued (empty trace, so
gate, pulse and output signals are untouched); at or above the minimum the
parameter check raises nothing — the plan either completes or propagates a
RunEngine failure of one of its own commands. -/
theorem setup_zebra_for_rotation_exposure_guard (env : Env) (zc : ZebraConstants)
    (axisVal : ℕ) (startAngle scanWidth exposureTime : ℚ) (wait : Bool) :
    (exposureTime < MINIMUM_EXPOSURE_TIME →
      setup_zebra_for_rotation env zc axisVal startAngle scanWidth exposureTime wait
        = ([], Except.error (PlanErr.exc (minExposureMsg exposureTime)))) ∧
    (MINIMUM_EXPOSURE_TIME ≤ exposureTime →
      (setup_zebra_for_rotation env zc axisVal startAngle scanWidth exposureTime wait).2
          = Except.ok () ∨
        ∃ m ∈ rotationMsgs zc axisVal startAngle scanWidth exposureTime,
          (setup_zebra_for_rotation env zc axisVal startAngle scanWidth exposureTime wait).2
            = Except.error (PlanErr.msgFailure m)) := by
  constructor
  · intro h
    rw [setup_zebra_for_rotation, if_pos h]
  · intro h
    rw [setup_zebra_for_rotation, if_neg (not_lt.2 h)]
    exact emitSeq_result env _

/-- Witness for C9: a 0.001 s exposure is rejected with an empty trace, a
0.01 s exposure passes the parameter check. -/
theorem setup_zebra_for_rotation_exposure_guard_witness :
    ((1 : ℚ) / 1000 < MINIMUM_EXPOSURE_TIME ∧
      setup_zebra_for_rotation envOk ⟨1, 2, 3, 31, 36, 0⟩ 0 0 360 ((1 : ℚ) / 1000) false
        = ([], Except.error (PlanErr.exc (minExposureMsg ((1 : ℚ) / 1000))))) ∧
    (MINIMUM_EXPOSURE_TIME ≤ (1 : ℚ) / 100 ∧
      ((setup_zebra_for_rotation envOk ⟨1, 2, 3, 31, 36, 0⟩ 0 0 360 ((1 : ℚ) / 100) false).2
          = Except.ok () ∨
        ∃ m ∈ rotationMsgs ⟨1, 2, 3, 31, 36, 0⟩ 0 0 360 ((1 : ℚ) / 100),
          (setup_zebra_for_rotation envOk ⟨1, 2, 3, 31, 36, 0⟩ 0 0 360 ((1 : ℚ) / 100) false).2
            = Except.error (PlanErr.msgFailure m))) := by
  constructor
  · exact ⟨by norm_num [MINIMUM_EXPOSURE_TIME],
      (setup_zebra_for_rotation_exposure_guard envOk ⟨1, 2, 3, 31, 36, 0⟩ 0 0 360
        ((1 : ℚ) / 1000) false).1 (by norm_num [MINIMUM_EXPOSURE_TIME])⟩
  · exact ⟨by norm_num [MINIMUM_EXPOSURE_TIME],
      (setup_zebra_for_rotation_exposure_guard envOk ⟨1, 2, 3, 31, 36, 0⟩ 0 0 360
        ((1 : ℚ) / 100) false).2 (by norm_num [MINIMUM_EXPOSURE_TIME])⟩
